import Mathlib

/-!
Verification of the maintain-metadata stack of ndlib/mellon-blueprints.

The repository's behaviour lives in AppSync VTL mapping templates (string
literals inside `deploy/cdk/lib/maintain-metadata/maintain-metadata-stack.ts`)
and in one inline Python Lambda that rotates AppSync API keys.  This file
gives a shallow embedding of those templates and of the Lambda: VTL string
utilities become Lean functions on `String`/`Option String`, the update
expression builders become functions from argument association lists to the
emitted expression/names/values, and the Lambda becomes a function from its
environment and an AWS-response oracle to the list of AWS API calls it makes.
-/

namespace MellonBlueprints

/-- Whitespace test used by the blank check of `$util.defaultIfNullOrBlank`
(Apache commons `isBlank` counts space, tab, newline, carriage return). -/
def isBlankChar (c : Char) : Bool :=
  c == ' ' || c == '\t' || c == '\n' || c == '\r'

/-- A string is blank when all of its characters are whitespace (so the empty
string is blank).  This is the blank test of `$util.defaultIfNullOrBlank`. -/
def strIsBlank (s : String) : Bool := s.data.all isBlankChar

/-- Model of `$util.defaultIfNullOrBlank(first, default)` with a string
default: returns `first` unless it is null or blank, else the default. -/
def defaultIfNullOrBlank (o : Option String) (d : String) : String :=
  match o with
  | none => d
  | some s => if strIsBlank s then d else s

/-- Model of `$util.defaultIfNullOrBlank(first, default)` where the default
may itself be null (an undefined VTL reference evaluates to null, and AppSync
`#set` assigns null, as the templates' own comments document for `$null`). -/
def defaultIfNullOrBlankOpt (o d : Option String) : Option String :=
  match o with
  | none => d
  | some s => if strIsBlank s then d else some s

/-- Model of `$util.str.toUpper`. -/
def strUpper (s : String) : String := ⟨s.data.map Char.toUpper⟩

/-- Model of `$util.str.toReplace(s, " ", "")`: removing every space. -/
def removeSpaces (s : String) : String := ⟨s.data.filter (fun c => c != ' ')⟩

/-- The identifier normalization routine shared by the resolver request
templates: default null/blank to the empty string, uppercase, then remove
all spaces — in that order, exactly as the four `#set` lines do. -/
def normalizeId (o : Option String) : String :=
  removeSpaces (strUpper (defaultIfNullOrBlank o ""))

/-! Key construction of individual resolver request templates, translated
line by line from `maintain-metadata-stack.ts`. -/

/-- PK of the `QueryGetFileGroupResolver` GetItem request (a constant). -/
def queryGetFileGroupPK : String := "FILEGROUP"

/-- SK of the `QueryGetFileGroupResolver` GetItem request
(`maintain-metadata-stack.ts` lines 977-991): default, uppercase, strip
spaces, then prefix with `FILEGROUP#`. -/
def queryGetFileGroupSK (argId : Option String) : String :=
  let id := defaultIfNullOrBlank argId ""
  let id := strUpper id
  let id := removeSpaces id
  "FILEGROUP#" ++ id

/-- PK of the `MutationAddItemToWebsiteResolver` UpdateItem request
(lines 826-835). -/
def addItemToWebsitePK (websiteId : Option String) : String :=
  let w := defaultIfNullOrBlank websiteId ""
  let w := strUpper w
  let w := removeSpaces w
  "WEBSITE#" ++ w

/-- SK of the `MutationAddItemToWebsiteResolver` UpdateItem request
(lines 826-835). -/
def addItemToWebsiteSK (itemId : Option String) : String :=
  let i := defaultIfNullOrBlank itemId ""
  let i := strUpper i
  let i := removeSpaces i
  "ITEM#" ++ i

/-- SK of the `QueryGetPortfolioUserResolver` GetItem request (line 2927):
`$util.str.toUpper("USER#$portfolioUserId")` where `$portfolioUserId` is the
caller's `$ctx.identity.claims.netid` used raw — no null/blank defaulting and
no space removal are applied to it. -/
def queryGetPortfolioUserSK (netid : String) : String :=
  strUpper ("USER#" ++ netid)

/-- SK built by `expandSubjectTermsFunction`'s request template for a subject
with a non-empty uri (lines 1587-1591): `URI#` plus the uppercased uri — the
uri is uppercased but never space-stripped. -/
def expandSubjectTermsSK (uri : Option String) : String :=
  "URI#" ++ strUpper (defaultIfNullOrBlank uri "")

/-- PK computed by `getMergedItemRecordFunction`'s request template
(lines 94-106 / 1510-1522).  The third fallback line reads the undefined
variable `$is` (instead of `$id`), which evaluates to null, so the line
unconditionally replaces `$id` with
`$util.defaultIfNullOrBlank($is, $ctx.source.itemMetadataId)` =
`$ctx.source.itemMetadataId` (possibly null). -/
def getMergedItemRecordPK (stashItemId srcItemId srcId srcItemMetadataId : Option String) :
    String :=
  let id := defaultIfNullOrBlankOpt stashItemId srcItemId
  let id := defaultIfNullOrBlankOpt id srcId
  let id := defaultIfNullOrBlankOpt none srcItemMetadataId
  let id := defaultIfNullOrBlank id ""
  let id := strUpper id
  let id := removeSpaces id
  "ITEM#" ++ id

/-! The partial-update expression builder.

`updateItemFunction` (lines 341-408), `updateSupplementalDataFunction`
(lines 457-524) and `updateSupplementalDataRecordFunction` (lines 221-292)
each embed a copy of the same VTL fragment: iterate over the argument map
minus the keys `itemId`/`expectedVersion`, classify each entry as SET
(non-null value) or REMOVE (null value), then assemble an UpdateExpression
string plus `expressionNames`/`expressionValues` maps.  Arguments are
modelled as association lists in insertion order (AppSync VTL maps are
insertion-ordered); a value of `none` models a null argument and the
DynamoDB-serialized value `$util.dynamodb.toDynamoDB($entry.value)` is
abstracted as the string it serializes to. -/

/-- An argument map for the update functions: keys with optional values. -/
abbrev UpdateArgs := List (String × Option String)

/-- Output of one copy of the update expression builder. -/
structure UpdateExprParts where
  expression : String
  expNames : List (String × String)
  expValues : List (String × String)
deriving DecidableEq

/-- The VTL foreach-with-`$foreach.hasNext` join: every item is preceded by a
space and items are separated by commas, exactly as the builder loops emit. -/
def sepJoin : List String → String
  | [] => ""
  | [x] => " " ++ x
  | x :: y :: rest => " " ++ x ++ "," ++ sepJoin (y :: rest)

/-- Builder copy of `updateItemFunction` (lines 341-408). -/
def buildItemUpdate (args : UpdateArgs) : UpdateExprParts :=
  let entries := args.filter (fun e => e.1 != "itemId" && e.1 != "expectedVersion")
  let expSet := entries.filterMap (fun e => e.2.map (fun _ => ("#" ++ e.1, ":" ++ e.1)))
  let expRemove := (entries.filter (fun e => e.2.isNone)).map (fun e => "#" ++ e.1)
  let expNames := entries.map (fun e => ("#" ++ e.1, e.1))
  let expValues := entries.filterMap (fun e => e.2.map (fun v => (":" ++ e.1, v)))
  { expression :=
      (if expSet.isEmpty then ""
       else "SET" ++ sepJoin (expSet.map (fun p => p.1 ++ " = " ++ p.2)))
        ++ (if expRemove.isEmpty then "" else " REMOVE" ++ sepJoin expRemove),
    expNames := expNames,
    expValues := expValues }

/-- Builder copy of `updateSupplementalDataFunction` (lines 457-524),
translated independently of `buildItemUpdate`. -/
def buildSupplementalDataUpdate (args : UpdateArgs) : UpdateExprParts :=
  let entries := args.filter (fun e => e.1 != "itemId" && e.1 != "expectedVersion")
  let expSet := entries.filterMap (fun e => e.2.map (fun _ => ("#" ++ e.1, ":" ++ e.1)))
  let expRemove := (entries.filter (fun e => e.2.isNone)).map (fun e => "#" ++ e.1)
  let expNames := entries.map (fun e => ("#" ++ e.1, e.1))
  let expValues := entries.filterMap (fun e => e.2.map (fun v => (":" ++ e.1, v)))
  { expression :=
      (if expSet.isEmpty then ""
       else "SET" ++ sepJoin (expSet.map (fun p => p.1 ++ " = " ++ p.2)))
        ++ (if expRemove.isEmpty then "" else " REMOVE" ++ sepJoin expRemove),
    expNames := expNames,
    expValues := expValues }

/-- Builder copy of `updateSupplementalDataRecordFunction` (lines 221-292):
after the SET loop, a non-empty SET clause additionally receives
`, dateAddedToDynamo = if_not_exists(dateAddedToDynamo, :dateAddedToDynamo)`
and `:dateAddedToDynamo` is put into `expValues` with the current timestamp
(`$util.time.nowISO8601()`, passed in here as `now`). -/
def buildSupplementalDataRecordUpdate (now : String) (args : UpdateArgs) : UpdateExprParts :=
  let entries := args.filter (fun e => e.1 != "itemId" && e.1 != "expectedVersion")
  let expSet := entries.filterMap (fun e => e.2.map (fun _ => ("#" ++ e.1, ":" ++ e.1)))
  let expRemove := (entries.filter (fun e => e.2.isNone)).map (fun e => "#" ++ e.1)
  let expNames := entries.map (fun e => ("#" ++ e.1, e.1))
  let expValues := entries.filterMap (fun e => e.2.map (fun v => (":" ++ e.1, v)))
  { expression :=
      (if expSet.isEmpty then ""
       else "SET" ++ sepJoin (expSet.map (fun p => p.1 ++ " = " ++ p.2))
              ++ ", dateAddedToDynamo = if_not_exists(dateAddedToDynamo, :dateAddedToDynamo)")
        ++ (if expRemove.isEmpty then "" else " REMOVE" ++ sepJoin expRemove),
    expNames := expNames,
    expValues :=
      if expSet.isEmpty then expValues
      else expValues ++ [(":dateAddedToDynamo", now)] }

/-! Specification-side descriptions of the builder output, written from the
spec's words ("iterate arguments, classify into SET/REMOVE, emit an
UpdateExpression string"), to compare against the three source copies. -/

/-- The argument entries the builder iterates: all entries except those keyed
`itemId` or `expectedVersion`. -/
def updateArgEntries (args : UpdateArgs) : UpdateArgs :=
  args.filter (fun e => e.1 != "itemId" && e.1 != "expectedVersion")

/-- SET pairs: one `#key = :key` pair per non-null entry. -/
def specSetPairs (args : UpdateArgs) : List (String × String) :=
  (updateArgEntries args).filterMap
    (fun e => e.2.map (fun _ => ("#" ++ e.1, ":" ++ e.1)))

/-- The comma-separated SET clause over all non-null entries. -/
def specSetClause (args : UpdateArgs) : String :=
  if (specSetPairs args).isEmpty then ""
  else "SET" ++ sepJoin ((specSetPairs args).map (fun p => p.1 ++ " = " ++ p.2))

/-- The comma-separated REMOVE clause over all null entries. -/
def specRemoveClause (args : UpdateArgs) : String :=
  let names := ((updateArgEntries args).filter (fun e => e.2.isNone)).map (fun e => "#" ++ e.1)
  if names.isEmpty then "" else " REMOVE" ++ sepJoin names

/-- The extra SET text appended by `updateSupplementalDataRecordFunction`. -/
def dateAddedClause : String :=
  ", dateAddedToDynamo = if_not_exists(dateAddedToDynamo, :dateAddedToDynamo)"

/-! Further key constructions used by the composite-key invariant. -/

/-- PK of `UpdateSupplementalDataRecordFunction`'s UpdateItem request
(lines 177-190): `ITEM#` plus the normalized `itemId` argument. -/
def updateSupplementalDataRecordPK (itemId : Option String) : String :=
  let id := defaultIfNullOrBlank itemId ""
  let id := strUpper id
  let id := removeSpaces id
  "ITEM#" ++ id

/-- SK of `UpdateSupplementalDataRecordFunction`'s UpdateItem request
(lines 184-191): the `websiteId` argument defaults to `All`, is uppercased
and space-stripped, and is prefixed with `SUPPLEMENTALDATA#`. -/
def updateSupplementalDataRecordSK (websiteId : Option String) : String :=
  let w := defaultIfNullOrBlank websiteId "All"
  let w := strUpper w
  let w := removeSpaces w
  "SUPPLEMENTALDATA#" ++ w

/-- PK of `MutationAddItemToHarvestResolver`'s UpdateItem request
(line 2171): a constant record-type tag. -/
def addItemToHarvestPK : String := "ITEMTOHARVEST"

/-- SK of `MutationAddItemToHarvestResolver`'s UpdateItem request
(lines 2163-2172): `SOURCESYSTEM#` + normalized source system + `#` +
normalized harvest item id. -/
def addItemToHarvestSK (sourceSystem harvestItemId : Option String) : String :=
  let ss := defaultIfNullOrBlank sourceSystem ""
  let ss := strUpper ss
  let ss := removeSpaces ss
  let hid := defaultIfNullOrBlank harvestItemId ""
  let hid := strUpper hid
  let hid := removeSpaces hid
  "SOURCESYSTEM#" ++ (ss ++ ("#" ++ hid))

/-- PK of `MutationSavePortfolioCollectionResolver`'s UpdateItem request
(line 2489): a constant record-type tag. -/
def savePortfolioCollectionPK : String := "PORTFOLIO"

/-- SK of `MutationSavePortfolioCollectionResolver`'s UpdateItem request
(lines 2464-2490): the collection id defaults to a generated
`$util.autoId()` (passed in as `autoId`), is uppercased and space-stripped,
and the whole `USER#netid#collectionId` string is uppercased. -/
def savePortfolioCollectionSK (netid autoId : String) (argCollectionId : Option String) :
    String :=
  let cid := defaultIfNullOrBlank argCollectionId autoId
  let cid := defaultIfNullOrBlank (some cid) ""
  let cid := strUpper cid
  let cid := removeSpaces cid
  strUpper ("USER#" ++ (netid ++ ("#" ++ cid)))

/-- PK of the `QueryListItemsByWebsiteResolver` query key condition
(lines 3118-3130): `WEBSITE#` plus the normalized id argument. -/
def listItemsByWebsitePK (argId : Option String) : String :=
  let id := defaultIfNullOrBlank argId ""
  let id := strUpper id
  let id := removeSpaces id
  "WEBSITE#" ++ id

/-- PK of `MutationRemoveDefaultImageForWebsiteResolver`'s UpdateItem request
(lines 2230-2241): `ITEM#` plus the normalized itemId argument. -/
def removeDefaultImageForWebsitePK (itemId : Option String) : String :=
  let i := defaultIfNullOrBlank itemId ""
  let i := strUpper i
  let i := removeSpaces i
  "ITEM#" ++ i

/-- SK of `MutationRemoveDefaultImageForWebsiteResolver`'s UpdateItem request
(lines 2235-2242): the websiteId argument defaults to `All` — not the empty
string — before uppercasing and space removal. -/
def removeDefaultImageForWebsiteSK (websiteId : Option String) : String :=
  let w := defaultIfNullOrBlank websiteId "All"
  let w := strUpper w
  let w := removeSpaces w
  "SUPPLEMENTALDATA#" ++ w

/-- PK of the fallback key `expandSubjectTermsFunction` puts into its
BatchGetItem request when no subject has a uri (lines 1599-1607): a bare
sentinel addressing a deliberately nonexistent record. -/
def expandSubjectTermsFallbackPK : String := "NoKeyToFind"

/-- SK of `expandSubjectTermsFunction`'s fallback key (lines 1599-1607). -/
def expandSubjectTermsFallbackSK : String := "YieldEmptyResultSet"

/-- PK of the fallback key `deletePortfolioContentForUserFunction` puts into
its BatchDeleteItem request when there is nothing to delete
(lines 1746-1755). -/
def deletePortfolioContentFallbackPK : String := "NoKeyToFind"

/-- SK of `deletePortfolioContentForUserFunction`'s fallback key
(lines 1746-1755). -/
def deletePortfolioContentFallbackSK : String := "YieldEmptyResultSet"

/-- The `begins_with` value of the GSI2SK key condition in
`QueryListPublicPortfolioCollectionsResolver` (line 3157):
`$util.str.toUpper("PUBLIC#")` — prefixed by the privacy value, not by a
record-type tag. -/
def listPublicPortfolioCollectionsGSI2Begin : String := strUpper "PUBLIC#"

/-- GSI2SK written by `MutationSavePortfolioCollectionResolver` for a
non-private collection (line 2514):
`$util.str.toUpper("$privacy#$portfolioCollectionId")` over the privacy value
and the already-normalized collection id. -/
def savePortfolioCollectionGSI2SK (privacy cid : String) : String :=
  strUpper (privacy ++ ("#" ++ cid))

/-- The record-type tags of the single-table design, as they appear in the
request templates. -/
def recordTypeTags : List String :=
  ["ITEM", "WEBSITE", "FILEGROUP", "PORTFOLIO", "SUPPLEMENTALDATA",
   "SOURCESYSTEM", "ITEMTOHARVEST", "USER", "FILE", "FILETOPROCESS"]

/-- A key value respects the composite-key convention when it is a bare
record-type tag or a record-type prefix joined by `#` to further content. -/
def isPrefixedCompositeKey (s : String) : Prop :=
  s ∈ recordTypeTags ∨ ∃ t ∈ recordTypeTags, ∃ rest, s = t ++ "#" ++ rest

/-! Response mapping templates (error handling).

Each response template is modelled as a function of the invocation error
`$ctx.error` (`none` when the data-source call succeeded) and of the
data-source result; `Except.error` models `$util.error($ctx.error.message,
$ctx.error.type)` aborting the template with a field error. -/

/-- A `$ctx.error` value: message and error type. -/
structure VtlError where
  message : String
  errType : String
deriving DecidableEq

/-- A DynamoDB record as seen by the templates: named string attributes in
insertion order. -/
abbrev DynamoRec := List (String × String)

/-- A DynamoDB query result: items plus pagination token. -/
structure DynamoQueryResult where
  items : List DynamoRec
  nextToken : Option String
deriving DecidableEq

/-- `put` on an insertion-ordered VTL map: replace in place, else append. -/
def assocPut : DynamoRec → String → String → DynamoRec
  | [], k, v => [(k, v)]
  | (k', v') :: rest, k, v =>
      if k' == k then (k, v) :: rest else (k', v') :: assocPut rest k v

/-- Model of `$util.map.copyAndRemoveAllKeys`. -/
def copyAndRemoveAllKeys (rec : DynamoRec) (keys : List String) : DynamoRec :=
  rec.filter (fun e => !(keys.contains e.1))

/-- The merge loop in `getMergedItemRecordFunction`'s response template
(lines 126-146): fold the queried records into one result record, taking the
`Item` record as base, copying `parentId` from `ParentOverride` records, and
copying the non-key attributes of `SupplementalData` records whose websiteId
matches the supplied website (or is `ALL`). -/
def mergeItemRecords (stashSuppliedWebsiteId : Option String) (items : List DynamoRec) :
    DynamoRec :=
  let sw := strUpper (defaultIfNullOrBlank stashSuppliedWebsiteId "")
  items.foldl
    (fun results item =>
      let wRec := strUpper (defaultIfNullOrBlank (item.lookup "websiteId") "")
      if item.lookup "TYPE" == some "Item" then
        assocPut item "suppliedWebsiteId" sw
      else if item.lookup "TYPE" == some "ParentOverride" then
        assocPut results "parentId" ((item.lookup "parentId").getD "")
      else if item.lookup "TYPE" == some "SupplementalData" && (sw == wRec || wRec == "ALL") then
        (copyAndRemoveAllKeys item
            ["PK", "SK", "TYPE", "GSI1PK", "GSI1SK", "GSI2PK", "GSI2SK",
             "dateAddedToDynamo", "dateModifiedInDynamo"]).foldl
          (fun r e => assocPut r e.1 e.2) results
      else results)
    []

/-- Response template of `getMergedItemRecordFunction` (lines 120-147): it
forwards `$ctx.error` via `$util.error` and otherwise emits the merged
record. -/
def getMergedItemRecordResponse (error : Option VtlError)
    (stashSuppliedWebsiteId : Option String) (result : DynamoQueryResult) :
    Except VtlError DynamoRec :=
  match error with
  | some e => Except.error e
  | none => Except.ok (mergeItemRecords stashSuppliedWebsiteId result.items)

/-- Response template of `updateItemFunction` (lines 411-417): forwards
`$ctx.error`, else `$util.toJson($ctx.result)`. -/
def updateItemResponse (error : Option VtlError) (result : DynamoRec) :
    Except VtlError DynamoRec :=
  match error with
  | some e => Except.error e
  | none => Except.ok result

/-- Response template of `updateSupplementalDataFunction` (lines 527-533). -/
def updateSupplementalDataResponse (error : Option VtlError) (result : DynamoRec) :
    Except VtlError DynamoRec :=
  match error with
  | some e => Except.error e
  | none => Except.ok result

/-- Response template of `updateSupplementalDataRecordFunction`
(lines 294-300). -/
def updateSupplementalDataRecordResponse (error : Option VtlError) (result : DynamoRec) :
    Except VtlError DynamoRec :=
  match error with
  | some e => Except.error e
  | none => Except.ok result

/-- Response template of `findPortfolioContentForUserFunction`
(lines 1712-1720): forwards `$ctx.error`, else stashes and emits the queried
items. -/
def findPortfolioContentForUserResponse (error : Option VtlError)
    (result : DynamoQueryResult) : Except VtlError (List DynamoRec) :=
  match error with
  | some e => Except.error e
  | none => Except.ok result.items

/-- Response template of `deletePortfolioContentForUserFunction`
(lines 1766-1773): forwards `$ctx.error`, else emits the stashed delete
count. -/
def deletePortfolioContentForUserResponse (error : Option VtlError)
    (recordsCountToDelete : Int) : Except VtlError Int :=
  match error with
  | some e => Except.error e
  | none => Except.ok recordsCountToDelete

/-- Response template of `QueryListWebsitesResolver` (lines 1202-1207 and
3325-3329): it emits items and nextToken without ever consulting
`$ctx.error`. -/
def queryListWebsitesResponse (error : Option VtlError) (result : DynamoQueryResult) :
    Except VtlError DynamoQueryResult :=
  Except.ok { items := result.items, nextToken := result.nextToken }

/-- Response template of `QueryListItemsByWebsiteResolver` (lines 3135-3139):
it emits items and nextToken without ever consulting `$ctx.error`. -/
def queryListItemsByWebsiteResponse (error : Option VtlError) (result : DynamoQueryResult) :
    Except VtlError DynamoQueryResult :=
  Except.ok { items := result.items, nextToken := result.nextToken }

/-! The API-key rotation Lambda (lines 1380-1437), an inline Python script.

Its AWS side effects are modelled as an emitted list of `AwsAction`s; the
responses the AWS SDK would return are supplied by an `AwsWorld` oracle, so
each helper returns the actions it performs (and its return value). -/

/-- One AWS API call made by the rotation Lambda. -/
inductive AwsAction where
  | ssmGet (name : String)
  | ssmPut (name : String) (value : String)
  | createApiKey (apiId : String) (description : String) (expires : Int)
  | listApiKeys (apiId : String)
  | deleteApiKey (apiId : String) (keyId : String)
deriving DecidableEq

/-- One entry of the `list_api_keys` response. -/
structure ApiKeyRecord where
  id : String
  expires : Int
  description : String
deriving DecidableEq

/-- Responses of the AWS APIs during one invocation: the SSM parameter value
(`none` models the caught `ClientError`), the id of the created key (`none`
models a falsy response), the key listing, and the current UNIX timestamp in
seconds. -/
structure AwsWorld where
  getParameterResult : Option String
  createApiKeyResult : Option String
  listedApiKeys : List ApiKeyRecord
  nowTimestamp : Int
deriving DecidableEq

/-- Python truthiness of an optional string (`None` and `""` are falsy). -/
def pyTruthy : Option String → Bool
  | none => false
  | some s => s != ""

/-- The Lambda's environment variables. -/
structure LambdaEnv where
  graphqlApiIdKeyPath : Option String
  graphqlApiKeyKeyPath : Option String
  daysForKeyToLast : Int
deriving DecidableEq

/-- `_get_parameter` (lines 1406-1412): one `get_parameter` call; a
`ClientError` is caught and turned into `None` (part of the oracle). -/
def getParameter (w : AwsWorld) (name : String) : List AwsAction × Option String :=
  ([AwsAction.ssmGet name], w.getParameterResult)

/-- `_get_expire_time` (lines 1415-1419): cap the day count at 364, then add
that many days (86400 seconds each) to the current timestamp. -/
def getExpireTime (days : Int) (now : Int) : Int :=
  let d := if days > 364 then 364 else days
  now + d * 86400

/-- `_generate_new_api_key` (lines 1422-1425): one `create_api_key` call with
description `auto maintained api key`; returns the new key's id. -/
def generateNewApiKey (w : AwsWorld) (graphqlApiId : String) (newExpireTime : Int) :
    List AwsAction × Option String :=
  ([AwsAction.createApiKey graphqlApiId "auto maintained api key" newExpireTime],
   w.createApiKeyResult)

/-- `_save_secure_parameter` (lines 1428-1429): one `put_parameter` call. -/
def saveSecureParameter (name keyId : String) : List AwsAction :=
  [AwsAction.ssmPut name keyId]

/-- The deletion condition of `_delete_expired_api_keys` (line 1435): the
key's expiry is strictly in the past and its description is exactly
`auto maintained api key`. -/
def isExpiredAutoKey (now : Int) (k : ApiKeyRecord) : Bool :=
  decide (k.expires < now) && k.description == "auto maintained api key"

/-- `_delete_expired_api_keys` (lines 1432-1436): one `list_api_keys` call,
then one `delete_api_key` per listed key satisfying the condition. -/
def deleteExpiredApiKeys (w : AwsWorld) (graphqlApiId : String) : List AwsAction :=
  AwsAction.listApiKeys graphqlApiId ::
    (w.listedApiKeys.filter (isExpiredAutoKey w.nowTimestamp)).map
      (fun k => AwsAction.deleteApiKey graphqlApiId k.id)

/-- The Lambda handler `run` (lines 1387-1403), with the Python guard
structure preserved: outer guard on the api-id parameter path, inner guard on
the fetched api id and the key parameter path, final guard on the generated
key before saving it and purging expired keys. -/
def run (env : LambdaEnv) (w : AwsWorld) : List AwsAction :=
  if pyTruthy env.graphqlApiIdKeyPath then
    let got := getParameter w (env.graphqlApiIdKeyPath.getD "")
    if pyTruthy got.2 && pyTruthy env.graphqlApiKeyKeyPath then
      let expireTime := getExpireTime env.daysForKeyToLast w.nowTimestamp
      let gen := generateNewApiKey w (got.2.getD "") expireTime
      if pyTruthy gen.2 then
        got.1 ++ gen.1 ++ saveSecureParameter (env.graphqlApiKeyKeyPath.getD "") (gen.2.getD "")
          ++ deleteExpiredApiKeys w (got.2.getD "")
      else got.1 ++ gen.1
    else got.1
  else []

/-- The cron fields of the `RotateAPIKeysRule` schedule. -/
structure CronScheduleParts where
  minute : String
  hour : String
deriving DecidableEq

/-- `RotateAPIKeysRule` (lines 1475-1479): `Schedule.cron({ minute: '0',
hour: '0' })`, i.e. daily at midnight UTC. -/
def rotateAPIKeysRuleSchedule : CronScheduleParts := { minute := "0", hour := "0" }

/-! Concrete inputs used by counterexamples and witnesses. -/

/-- A sample Lambda environment with both parameter paths present and the
stack's configured 7-day key lifetime. -/
def sampleEnv : LambdaEnv :=
  { graphqlApiIdKeyPath := some "/all/stacks/mm/graphql-api-id",
    graphqlApiKeyKeyPath := some "/all/stacks/mm/graphql-api-key",
    daysForKeyToLast := 7 }

/-- A sample AWS oracle: the api id parameter resolves, key creation
succeeds, and the listing holds one expired auto-maintained key, one expired
foreign key, and one future auto-maintained key. -/
def sampleWorld : AwsWorld :=
  { getParameterResult := some "api123",
    createApiKeyResult := some "key456",
    listedApiKeys :=
      [{ id := "oldauto", expires := 100, description := "auto maintained api key" },
       { id := "manualkey", expires := 100, description := "manual key" },
       { id := "futureauto", expires := 99999, description := "auto maintained api key" }],
    nowTimestamp := 1000 }

/-- Count helpers for the Lambda's action trace. -/
def countSsmGet (l : List AwsAction) : Nat :=
  l.countP (fun a => match a with | AwsAction.ssmGet _ => true | _ => false)

/-- Number of `put_parameter` calls in a trace. -/
def countSsmPut (l : List AwsAction) : Nat :=
  l.countP (fun a => match a with | AwsAction.ssmPut _ _ => true | _ => false)

/-- Number of `create_api_key` calls in a trace. -/
def countCreateApiKey (l : List AwsAction) : Nat :=
  l.countP (fun a => match a with | AwsAction.createApiKey _ _ _ => true | _ => false)

/-- Number of `list_api_keys` calls in a trace. -/
def countListApiKeys (l : List AwsAction) : Nat :=
  l.countP (fun a => match a with | AwsAction.listApiKeys _ => true | _ => false)

/-! Helper lemmas. -/

/-- Uppercasing distributes over string concatenation. -/
theorem strUpper_append (a b : String) : strUpper (a ++ b) = strUpper a ++ strUpper b :=
  congrArg String.mk (List.map_append _ _ _)

/-- Uppercasing a string that starts with `USER#` keeps that prefix. -/
theorem strUpper_userTag (r : String) :
    strUpper ("USER#" ++ r) = "USER#" ++ strUpper r := by
  rw [strUpper_append, show strUpper "USER#" = "USER#" from by decide]

/-- The trace of `run` in closed form: one branch per guard of the Python
handler. -/
theorem run_eq (env : LambdaEnv) (w : AwsWorld) : run env w =
    if pyTruthy env.graphqlApiIdKeyPath then
      AwsAction.ssmGet (env.graphqlApiIdKeyPath.getD "") ::
        (if pyTruthy w.getParameterResult && pyTruthy env.graphqlApiKeyKeyPath then
          AwsAction.createApiKey (w.getParameterResult.getD "") "auto maintained api key"
              (getExpireTime env.daysForKeyToLast w.nowTimestamp) ::
            (if pyTruthy w.createApiKeyResult then
              AwsAction.ssmPut (env.graphqlApiKeyKeyPath.getD "") (w.createApiKeyResult.getD "") ::
                deleteExpiredApiKeys w (w.getParameterResult.getD "")
            else [])
        else [])
    else [] := by
  simp only [run, getParameter, generateNewApiKey, saveSecureParameter, List.cons_append,
    List.nil_append]
  by_cases h1 : pyTruthy env.graphqlApiIdKeyPath <;>
    by_cases h2 : (pyTruthy w.getParameterResult && pyTruthy env.graphqlApiKeyKeyPath) = true <;>
      by_cases h3 : pyTruthy w.createApiKeyResult <;>
        simp [h1, h2, h3]

/-- `_get_expire_time` computes the capped expiry timestamp. -/
theorem getExpireTime_eq_min (d n : Int) : getExpireTime d n = n + min d 364 * 86400 := by
  simp only [getExpireTime, Int.min_def]
  by_cases h : d > 364 <;> by_cases h2 : d ≤ 364 <;> simp [h, h2] <;> omega

/-! Claim theorems. -/

/-- Claim C4: in `getMergedItemRecordFunction`'s request template the third
fallback line reads the undefined variable `$is` instead of `$id`, so the
partition key equals `ITEM#` + normalize(defaultIfNullOrBlank(source
itemMetadataId, "")) for every input, and the stashed itemId, source itemId
and source id computed by the two preceding lines never influence the key. -/
theorem getMergedItemRecordPK_ignores_fallbacks
    (stashItemId srcItemId srcId srcItemMetadataId : Option String) :
    getMergedItemRecordPK stashItemId srcItemId srcId srcItemMetadataId
      = "ITEM#" ++ normalizeId srcItemMetadataId
    ∧ ∀ a b c : Option String,
        getMergedItemRecordPK stashItemId srcItemId srcId srcItemMetadataId
          = getMergedItemRecordPK a b c srcItemMetadataId :=
  ⟨rfl, fun _ _ _ => rfl⟩

/-- Claim C2 counterexample: `QueryGetPortfolioUserResolver` builds its SK
from the caller-supplied netid identifier, but at the concrete identifier
`"my netid"` the key it builds is `USER#MY NETID` — not the
`USER#` + normalize(id) = `USER#MYNETID` the claim prescribes for every
resolver (no blank-defaulting and no space removal are applied); likewise
`expandSubjectTermsFunction` builds `URI#` keys from the source record's
subject uri without space removal. -/
theorem portfolioUser_key_not_normalized :
    queryGetPortfolioUserSK "my netid" ≠ "USER#" ++ normalizeId (some "my netid")
    ∧ expandSubjectTermsSK (some "http://loc.gov/a b")
        ≠ "URI#" ++ normalizeId (some "http://loc.gov/a b") := by
  decide

/-- Claim C2 (amended): resolvers that take their identifier from the GraphQL
arguments or source object normalize it by null/blank-defaulting, then
uppercasing, then removing all spaces — in that order — and emit the key as
record-type prefix + `#` + normalized id; the default substituted for a
null/blank identifier is the empty string everywhere except the
supplemental-data `websiteId`, which `updateSupplementalDataRecordFunction`
and `removeDefaultImageForWebsite` default to `All` (so a null input yields
SK `SUPPLEMENTALDATA#ALL`).  Exceptions to the routine itself: the portfolio
resolvers that key on the caller's identity netid only uppercase the whole
composite key (no blank substitution, no space removal), and
`expandSubjectTermsFunction`'s `URI#` keys are uppercased but keep their
spaces. -/
theorem id_normalization_and_prefixing
    (argId websiteId itemId supWebsiteId ss hid : Option String) (netid : String) :
    queryGetFileGroupSK argId = "FILEGROUP#" ++ normalizeId argId
    ∧ addItemToWebsitePK websiteId = "WEBSITE#" ++ normalizeId websiteId
    ∧ addItemToWebsiteSK itemId = "ITEM#" ++ normalizeId itemId
    ∧ listItemsByWebsitePK argId = "WEBSITE#" ++ normalizeId argId
    ∧ addItemToHarvestSK ss hid
        = "SOURCESYSTEM#" ++ (normalizeId ss ++ ("#" ++ normalizeId hid))
    ∧ updateSupplementalDataRecordPK itemId = "ITEM#" ++ normalizeId itemId
    ∧ updateSupplementalDataRecordSK supWebsiteId
        = "SUPPLEMENTALDATA#" ++ removeSpaces (strUpper (defaultIfNullOrBlank supWebsiteId "All"))
    ∧ updateSupplementalDataRecordSK none = "SUPPLEMENTALDATA#ALL"
    ∧ removeDefaultImageForWebsitePK itemId = "ITEM#" ++ normalizeId itemId
    ∧ removeDefaultImageForWebsiteSK supWebsiteId
        = "SUPPLEMENTALDATA#" ++ removeSpaces (strUpper (defaultIfNullOrBlank supWebsiteId "All"))
    ∧ removeDefaultImageForWebsiteSK none = "SUPPLEMENTALDATA#ALL"
    ∧ queryGetPortfolioUserSK netid = "USER#" ++ strUpper netid
    ∧ expandSubjectTermsSK (some "http://loc.gov/a b") = "URI#HTTP://LOC.GOV/A B" := by
  exact ⟨rfl, rfl, rfl, rfl, rfl, rfl, rfl, by decide, rfl, rfl, by decide,
    strUpper_userTag netid, by decide⟩

/-- Claim C7 counterexample: not every key placed in a request is a
record-type tag or record-type-prefixed composite — the BatchGetItem /
BatchDeleteItem fallback requests of `expandSubjectTermsFunction`
(lines 1599-1607) and `deletePortfolioContentForUserFunction`
(lines 1746-1755) address a deliberately nonexistent record through the bare
sentinel keys `NoKeyToFind` / `YieldEmptyResultSet`, which are neither
record-type tags nor prefixed by one. -/
theorem sentinel_keys_not_record_prefixed :
    ¬ isPrefixedCompositeKey expandSubjectTermsFallbackPK
    ∧ ¬ isPrefixedCompositeKey deletePortfolioContentFallbackSK := by
  constructor <;>
  · rintro (hmem | ⟨t, ht, rest, heq⟩)
    · exact absurd hmem (by decide)
    · have hd := congrArg String.data heq
      simp only [String.data_append] at hd
      have hhash : '#' ∈ t.data ++ ("#".data ++ rest.data) := by
        simp
      rw [List.append_assoc] at hd
      rw [← hd] at hhash
      exact absurd hhash (by decide)

/-- Claim C7 (amended): the modelled request-template keys address records
through string-prefixed composite keys — each PK/SK placed in a key or
key-condition expression is a bare record-type tag or a record-type prefix
joined by `#` to the computed identifiers, and no raw unprefixed identifier
is ever used as a key — except that the batch fallback requests of
`expandSubjectTermsFunction` and `deletePortfolioContentForUserFunction` use
the constant sentinel keys `NoKeyToFind` / `YieldEmptyResultSet`, and the
public-portfolio-collection templates use GSI2SK values prefixed by the
privacy value (`PUBLIC#...`) rather than by a record-type tag. -/
theorem resolver_keys_are_prefixed
    (itemId websiteId sourceSystem harvestItemId argId cid : Option String)
    (netid autoId cidNorm : String) :
    isPrefixedCompositeKey (updateSupplementalDataRecordPK itemId)
    ∧ isPrefixedCompositeKey (updateSupplementalDataRecordSK websiteId)
    ∧ isPrefixedCompositeKey addItemToHarvestPK
    ∧ isPrefixedCompositeKey (addItemToHarvestSK sourceSystem harvestItemId)
    ∧ isPrefixedCompositeKey savePortfolioCollectionPK
    ∧ isPrefixedCompositeKey (savePortfolioCollectionSK netid autoId cid)
    ∧ isPrefixedCompositeKey (addItemToWebsitePK websiteId)
    ∧ isPrefixedCompositeKey (addItemToWebsiteSK itemId)
    ∧ isPrefixedCompositeKey queryGetFileGroupPK
    ∧ isPrefixedCompositeKey (queryGetFileGroupSK argId)
    ∧ isPrefixedCompositeKey (listItemsByWebsitePK argId)
    ∧ isPrefixedCompositeKey (queryGetPortfolioUserSK netid)
    ∧ isPrefixedCompositeKey (removeDefaultImageForWebsitePK itemId)
    ∧ isPrefixedCompositeKey (removeDefaultImageForWebsiteSK websiteId)
    ∧ expandSubjectTermsFallbackPK = "NoKeyToFind"
    ∧ expandSubjectTermsFallbackSK = "YieldEmptyResultSet"
    ∧ deletePortfolioContentFallbackPK = "NoKeyToFind"
    ∧ deletePortfolioContentFallbackSK = "YieldEmptyResultSet"
    ∧ listPublicPortfolioCollectionsGSI2Begin = "PUBLIC#"
    ∧ savePortfolioCollectionGSI2SK "public" cidNorm = "PUBLIC#" ++ strUpper cidNorm := by
  refine ⟨Or.inr ⟨"ITEM", by decide, _, rfl⟩,
    Or.inr ⟨"SUPPLEMENTALDATA", by decide, _, rfl⟩,
    Or.inl (by decide),
    Or.inr ⟨"SOURCESYSTEM", by decide, _, rfl⟩,
    Or.inl (by decide),
    ?_,
    Or.inr ⟨"WEBSITE", by decide, _, rfl⟩,
    Or.inr ⟨"ITEM", by decide, _, rfl⟩,
    Or.inl (by decide),
    Or.inr ⟨"FILEGROUP", by decide, _, rfl⟩,
    Or.inr ⟨"WEBSITE", by decide, _, rfl⟩,
    ?_,
    Or.inr ⟨"ITEM", by decide, _, rfl⟩,
    Or.inr ⟨"SUPPLEMENTALDATA", by decide, _, rfl⟩,
    rfl, rfl, rfl, rfl, by decide, ?_⟩
  · unfold savePortfolioCollectionSK
    rw [strUpper_userTag]
    exact Or.inr ⟨"USER", by decide, _, rfl⟩
  · unfold queryGetPortfolioUserSK
    rw [strUpper_userTag]
    exact Or.inr ⟨"USER", by decide, _, rfl⟩
  · unfold savePortfolioCollectionGSI2SK
    rw [strUpper_append, strUpper_append,
      show strUpper "public" = "PUBLIC" from by decide,
      show strUpper "#" = "#" from by decide, ← String.append_assoc]
    rfl

/-- Claim C1 counterexample: for `updateSupplementalDataRecordFunction` the
emitted UpdateExpression is not just the comma-separated SET clause over the
non-null entries followed by the REMOVE clause over the null entries — at the
concrete argument map `[(title, "T")]` the builder also appends the
`dateAddedToDynamo = if_not_exists(...)` assignment to the SET clause. -/
theorem record_builder_breaks_claimed_set_shape :
    (buildSupplementalDataRecordUpdate "2024-01-01T00:00:00Z" [("title", some "T")]).expression
      ≠ specSetClause [("title", some "T")] ++ specRemoveClause [("title", some "T")] := by
  decide

/-- Claim C1 (amended): every argument entry not keyed `itemId` or
`expectedVersion` is classified into SET (non-null) or REMOVE (null), and for
`updateItemFunction` and `updateSupplementalDataFunction` the emitted
UpdateExpression is exactly the comma-separated SET clause over the non-null
entries followed by the comma-separated REMOVE clause over the null entries;
`updateSupplementalDataRecordFunction` emits the same shape except that a
non-empty SET clause additionally receives the trailing
`dateAddedToDynamo = if_not_exists(dateAddedToDynamo, :dateAddedToDynamo)`
assignment.  Entries keyed `itemId` or `expectedVersion` never reach the
expression-name map. -/
theorem updateBuilders_set_remove_shape (args : UpdateArgs) (now : String) :
    (buildItemUpdate args).expression = specSetClause args ++ specRemoveClause args
    ∧ (buildSupplementalDataUpdate args).expression
        = specSetClause args ++ specRemoveClause args
    ∧ (buildSupplementalDataRecordUpdate now args).expression
        = specSetClause args
            ++ (if (specSetPairs args).isEmpty then "" else dateAddedClause)
            ++ specRemoveClause args
    ∧ (buildItemUpdate args).expNames
        = (updateArgEntries args).map (fun e => ("#" ++ e.1, e.1))
    ∧ ((buildItemUpdate args).expNames.all
          (fun p => p.2 != "itemId" && p.2 != "expectedVersion")) = true := by
  refine ⟨rfl, rfl, ?_, rfl, ?_⟩
  · simp only [buildSupplementalDataRecordUpdate, specSetClause, specRemoveClause, specSetPairs,
      updateArgEntries, dateAddedClause]
    by_cases h : ((args.filter (fun e => e.1 != "itemId" && e.1 != "expectedVersion")).filterMap
        (fun e => e.2.map (fun _ => ("#" ++ e.1, ":" ++ e.1)))).isEmpty
    · simp only [h, if_true]
      rfl
    · simp only [h, if_false]
      rfl
  · simp only [buildItemUpdate]
    rw [List.all_eq_true]
    intro x hx
    rw [List.mem_map] at hx
    obtain ⟨e, he, rfl⟩ := hx
    rw [List.mem_filter] at he
    exact he.2

/-- Claim C8 counterexample: the two copies in `updateItemFunction` and
`updateSupplementalDataFunction` do not differ from
`updateSupplementalDataRecordFunction` only in the appended SET text — at the
concrete argument map `[(title, "T")]` the record variant's
`expressionValues` map additionally carries the `:dateAddedToDynamo`
timestamp entry. -/
theorem record_builder_extra_expression_value :
    (buildSupplementalDataRecordUpdate "2024-01-01T00:00:00Z" [("title", some "T")]).expValues
      ≠ (buildItemUpdate [("title", some "T")]).expValues := by
  decide

/-- Claim C8 (amended): the builder copies in `updateItemFunction` and
`updateSupplementalDataFunction` produce identical UpdateExpression,
expressionNames and expressionValues for every argument map; the copy in
`updateSupplementalDataRecordFunction` produces the same expressionNames, and
when there is no SET entry it coincides entirely, while with a non-empty SET
clause it appends the `dateAddedToDynamo = if_not_exists(...)` assignment to
the SET clause and the matching `:dateAddedToDynamo` entry to
expressionValues. -/
theorem update_builder_copies_equivalent (args : UpdateArgs) (now : String) :
    buildSupplementalDataUpdate args = buildItemUpdate args
    ∧ (buildSupplementalDataRecordUpdate now args).expNames = (buildItemUpdate args).expNames
    ∧ ((specSetPairs args).isEmpty = true →
        buildSupplementalDataRecordUpdate now args = buildItemUpdate args)
    ∧ ((specSetPairs args).isEmpty = false →
        (buildSupplementalDataRecordUpdate now args).expression
          = specSetClause args ++ dateAddedClause ++ specRemoveClause args
        ∧ (buildItemUpdate args).expression = specSetClause args ++ specRemoveClause args
        ∧ (buildSupplementalDataRecordUpdate now args).expValues
          = (buildItemUpdate args).expValues ++ [(":dateAddedToDynamo", now)]) := by
  refine ⟨rfl, rfl, ?_, ?_⟩
  · intro h
    simp only [specSetPairs, updateArgEntries] at h
    simp only [buildSupplementalDataRecordUpdate, buildItemUpdate, h, if_true]
  · intro h
    simp only [specSetPairs, updateArgEntries] at h
    refine ⟨?_, rfl, ?_⟩
    · simp only [buildSupplementalDataRecordUpdate, specSetClause, specRemoveClause, specSetPairs,
        updateArgEntries, dateAddedClause, h, if_false]
      rfl
    · simp only [buildSupplementalDataRecordUpdate, buildItemUpdate, h, if_false]
      rfl

/-- Claim C3 counterexample: `QueryListItemsByWebsiteResolver`'s response
template never consults `$ctx.error`; with a concrete invocation error set it
still returns the (empty) result instead of forwarding the error as a
GraphQL field error. -/
theorem listItemsByWebsite_ignores_ctx_error :
    queryListItemsByWebsiteResponse
        (some { message := "error from data source", errType := "DynamoDB:Error" })
        { items := [], nextToken := none }
      ≠ Except.error { message := "error from data source", errType := "DynamoDB:Error" } := by
  simp [queryListItemsByWebsiteResponse]

/-- Claim C3 (amended): the pipeline functions' response templates
(`getMergedItemRecordFunction`, the three update functions,
`findPortfolioContentForUserFunction`,
`deletePortfolioContentForUserFunction`) forward a set `$ctx.error` via
`$util.error($ctx.error.message, $ctx.error.type)` instead of returning a
result, but the plain list resolvers (`listWebsites`, `listItemsByWebsite`)
return their result unconditionally, never consulting `$ctx.error`. -/
theorem response_templates_error_forwarding (e : VtlError) (sw : Option String)
    (q : DynamoQueryResult) (r : DynamoRec) (n : Int) :
    getMergedItemRecordResponse (some e) sw q = Except.error e
    ∧ updateItemResponse (some e) r = Except.error e
    ∧ updateSupplementalDataResponse (some e) r = Except.error e
    ∧ updateSupplementalDataRecordResponse (some e) r = Except.error e
    ∧ findPortfolioContentForUserResponse (some e) q = Except.error e
    ∧ deletePortfolioContentForUserResponse (some e) n = Except.error e
    ∧ (∀ err : Option VtlError,
        queryListWebsitesResponse err q = Except.ok { items := q.items, nextToken := q.nextToken })
    ∧ (∀ err : Option VtlError,
        queryListItemsByWebsiteResponse err q
          = Except.ok { items := q.items, nextToken := q.nextToken }) :=
  ⟨rfl, rfl, rfl, rfl, rfl, rfl, fun _ => rfl, fun _ => rfl⟩

/-- Claim C5 counterexample: the rotation Lambda's `run` does perform AppSync
state changes — on a concrete invocation where both parameter paths are set
and every call succeeds, its trace contains a `create_api_key` call (and a
`delete_api_key` call for the expired auto-maintained key). -/
theorem rotation_run_calls_appsync :
    AwsAction.createApiKey "api123" "auto maintained api key" 605800
        ∈ run sampleEnv sampleWorld
    ∧ AwsAction.deleteApiKey "api123" "oldauto" ∈ run sampleEnv sampleWorld := by
  decide

/-- Claim C5 (amended): each invocation of `run` reads at most one SSM
parameter and writes at most one SSM parameter — the write targeting
`GRAPHQL_API_KEY_KEY_PATH` with the newly generated key and happening only
when key generation returned a truthy id — but it additionally performs
AppSync calls: at most one `create_api_key` and at most one
`list_api_keys` (plus `delete_api_key` calls, bounded in claim C6). -/
theorem rotation_run_ssm_effects (env : LambdaEnv) (w : AwsWorld) :
    countSsmGet (run env w) ≤ 1
    ∧ countSsmPut (run env w) ≤ 1
    ∧ countCreateApiKey (run env w) ≤ 1
    ∧ countListApiKeys (run env w) ≤ 1
    ∧ ((run env w).all (fun a => match a with
          | AwsAction.ssmPut name v =>
              pyTruthy w.createApiKeyResult && (name == env.graphqlApiKeyKeyPath.getD "")
                && (v == w.createApiKeyResult.getD "")
          | _ => true)) = true := by
  rw [run_eq]
  by_cases h1 : pyTruthy env.graphqlApiIdKeyPath <;>
    by_cases h2 : (pyTruthy w.getParameterResult && pyTruthy env.graphqlApiKeyKeyPath) = true <;>
      by_cases h3 : pyTruthy w.createApiKeyResult <;>
        simp [h1, h2, h3, countSsmGet, countSsmPut, countCreateApiKey, countListApiKeys,
          deleteExpiredApiKeys, List.countP_cons, List.countP_map, Function.comp]
  intro x k hk hcond hx
  subst hx
  rfl

/-- Claim C6: the rotation rule fires on the cron schedule minute 0, hour 0
(once per day), and every invocation's trace is bounded by one
`get_parameter`, one `create_api_key`, one `put_parameter` and one
`list_api_keys` plus one `delete_api_key` per expired auto-maintained key in
the listing. -/
theorem rotation_schedule_and_call_bound :
    rotateAPIKeysRuleSchedule.minute = "0"
    ∧ rotateAPIKeysRuleSchedule.hour = "0"
    ∧ ∀ (env : LambdaEnv) (w : AwsWorld),
        (run env w).length
          ≤ 4 + (w.listedApiKeys.filter (isExpiredAutoKey w.nowTimestamp)).length := by
  refine ⟨rfl, rfl, fun env w => ?_⟩
  rw [run_eq]
  by_cases h1 : pyTruthy env.graphqlApiIdKeyPath <;>
    by_cases h2 : (pyTruthy w.getParameterResult && pyTruthy env.graphqlApiKeyKeyPath) = true <;>
      by_cases h3 : pyTruthy w.createApiKeyResult <;>
        simp [h1, h2, h3, deleteExpiredApiKeys] <;> omega

/-- Claim C9: `_get_expire_time` caps the requested lifetime at 364 days, so
for every non-negative day count the expiry passed to `create_api_key`
equals now + min(days, 364) days and lies strictly less than 365 days in the
future. -/
theorem api_key_expiry_capped (days now : Int) (env : LambdaEnv) (w : AwsWorld)
    (hdays : 0 ≤ days) :
    getExpireTime days now = now + min days 364 * 86400
    ∧ getExpireTime days now - now < 365 * 86400
    ∧ ∀ (apiId desc : String) (e : Int),
        AwsAction.createApiKey apiId desc e ∈ run env w →
          e = w.nowTimestamp + min env.daysForKeyToLast 364 * 86400
          ∧ e - w.nowTimestamp < 365 * 86400 := by
  refine ⟨getExpireTime_eq_min days now, ?_, ?_⟩
  · simp only [getExpireTime]
    by_cases h : days > 364
    · simp [h]
    · simp [h]
      omega
  · intro apiId desc e hmem
    rw [run_eq] at hmem
    by_cases h1 : pyTruthy env.graphqlApiIdKeyPath <;>
      by_cases h2 : (pyTruthy w.getParameterResult && pyTruthy env.graphqlApiKeyKeyPath) = true <;>
        by_cases h3 : pyTruthy w.createApiKeyResult <;>
          simp [h1, h2, h3, deleteExpiredApiKeys, List.mem_map, List.mem_filter] at hmem
    all_goals obtain ⟨-, -, he⟩ := hmem
    all_goals rw [he, getExpireTime_eq_min]
    all_goals refine ⟨rfl, ?_⟩
    all_goals have hmin : min env.daysForKeyToLast 364 ≤ 364 := min_le_right _ _
    all_goals omega

/-- Claim C9 witness: the theorem applied at the stack's configured 7-day
lifetime with a concrete timestamp. -/
theorem api_key_expiry_capped_witness :
    getExpireTime 7 1000 - 1000 < 365 * 86400 :=
  (api_key_expiry_capped 7 1000 sampleEnv sampleWorld (by decide)).2.1

/-- Claim C10: `run` issues a `delete_api_key` for a key id only when the
listing holds a key with that id whose expiry is strictly in the past and
whose description is exactly `auto maintained api key`; a listed key failing
either condition (its id occurring once in the listing) is never deleted. -/
theorem delete_only_expired_auto_keys (env : LambdaEnv) (w : AwsWorld) (apiId : String)
    (k : ApiKeyRecord) :
    (∀ kid, AwsAction.deleteApiKey apiId kid ∈ run env w →
       ∃ k', k' ∈ w.listedApiKeys ∧ k'.id = kid ∧ k'.expires < w.nowTimestamp
         ∧ k'.description = "auto maintained api key")
    ∧ (k ∈ w.listedApiKeys →
       ¬(k.expires < w.nowTimestamp ∧ k.description = "auto maintained api key") →
       (∀ k' ∈ w.listedApiKeys, k'.id = k.id → k' = k) →
       AwsAction.deleteApiKey apiId k.id ∉ run env w) := by
  constructor
  · intro kid hmem
    rw [run_eq] at hmem
    by_cases h1 : pyTruthy env.graphqlApiIdKeyPath <;>
      by_cases h2 : (pyTruthy w.getParameterResult && pyTruthy env.graphqlApiKeyKeyPath) = true <;>
        by_cases h3 : pyTruthy w.createApiKeyResult <;>
          simp [h1, h2, h3, deleteExpiredApiKeys, List.mem_map, List.mem_filter,
            isExpiredAutoKey] at hmem
    obtain ⟨k', ⟨hk', hc1, hc2⟩, -, hid⟩ := hmem
    exact ⟨k', hk', hid, hc1, hc2⟩
  · intro hk hcond huniq hmem
    rw [run_eq] at hmem
    by_cases h1 : pyTruthy env.graphqlApiIdKeyPath <;>
      by_cases h2 : (pyTruthy w.getParameterResult && pyTruthy env.graphqlApiKeyKeyPath) = true <;>
        by_cases h3 : pyTruthy w.createApiKeyResult <;>
          simp [h1, h2, h3, deleteExpiredApiKeys, List.mem_map, List.mem_filter,
            isExpiredAutoKey] at hmem
    obtain ⟨k', ⟨hk', hc1, hc2⟩, -, hid⟩ := hmem
    have hkk := huniq k' hk' hid
    subst hkk
    exact hcond ⟨hc1, hc2⟩

/-- Claim C10 witness: the not-yet-expired auto-maintained key in the sample
listing is not deleted by the sample invocation. -/
theorem delete_only_expired_auto_keys_witness :
    AwsAction.deleteApiKey "api123" "futureauto" ∉ run sampleEnv sampleWorld :=
  (delete_only_expired_auto_keys sampleEnv sampleWorld "api123"
      { id := "futureauto", expires := 99999, description := "auto maintained api key" }).2
    (by decide) (by decide) (by decide)

/-- Claim C8 witness: the amended equivalence applied at a concrete argument
map with one non-null entry, discharging the non-empty-SET hypothesis. -/
theorem update_builder_copies_equivalent_witness :
    (buildSupplementalDataRecordUpdate "2024-01-01T00:00:00Z" [("title", some "T")]).expValues
      = (buildItemUpdate [("title", some "T")]).expValues
          ++ [(":dateAddedToDynamo", "2024-01-01T00:00:00Z")] :=
  ((update_builder_copies_equivalent [("title", some "T")] "2024-01-01T00:00:00Z").2.2.2
      (by decide)).2.2

end MellonBlueprints
